import Mathlib

/-!
Shallow embedding of the x86/x86-64 instruction encoder of the assembler
repository (StatementsBuffer.rs and MemoryOffset16Bit.rs), together with
theorems settling the frozen claims about it.

The mutable byte buffer of the source is modelled by returning the list of
items pushed; literal bytes are natural numbers reduced modulo 256 exactly
where the u8 arithmetic of the source can wrap.  Panics (expect, unwrap,
explicit panic) are modelled by an Option result, encoding errors by Except.
Helper types of the repository that are not under src (register model,
relocation container, symbolic-expression sink) are modelled from the spec
and carry a doc comment saying so.
-/

set_option linter.unusedVariables false

namespace Assembler

/-- Operational mode of the target, from SupportedOperationalMode in the source:
Long is 64-bit, Protected is 32-bit. -/
inductive SupportedOperationalMode
  | Long
  | Protected
deriving DecidableEq

/-- Modelled from the spec: operand and displacement widths (Size in the source,
which is not under src). Only the widths the encoder uses are modelled. -/
inductive Size
  | BYTE
  | WORD
  | DWORD
  | QWORD
deriving DecidableEq

/-- Modelled from the spec: the width of a Size in bytes, used by the
relocation offset bump. -/
def Size.to_number_of_bytes : Size → Nat
  | .BYTE => 1
  | .WORD => 2
  | .DWORD => 4
  | .QWORD => 8

/-- Modelled from the spec: effective address width (AddressSize in the source,
which is not under src), with the 16-bit predicate used by the dispatcher. -/
inductive AddressSize
  | Sixteen
  | ThirtyTwo
  | SixtyFour
deriving DecidableEq

/-- Modelled from the spec: the predicate selecting 16-bit addressing. -/
def AddressSize.is_16_bit_addressing (a : AddressSize) : Bool :=
  a = AddressSize.Sixteen

/-- Modelled from the spec: a low-level numeric register identifier (0..31)
with the bit accessors the encoder uses (RegisterIdentifier in the source,
which is not under src). -/
structure RegisterIdentifier where
  code : Nat
deriving DecidableEq

/-- Modelled from the spec: the low 3 bits of the register code, used in
ModRM and scaled-index-byte fields. -/
def RegisterIdentifier.code_and_7 (r : RegisterIdentifier) : Nat :=
  r.code &&& 7

/-- Modelled from the spec: bit 3 of the register code, unshifted, the source
of the REX R, X and B extension bits. -/
def RegisterIdentifier.code_and_8 (r : RegisterIdentifier) : Nat :=
  r.code &&& 8

/-- Modelled from the spec: the complement of bit 3 of the register code,
used for the inverted extension fields of VEX byte1. -/
def RegisterIdentifier.code_and_8_then_invert (r : RegisterIdentifier) : Nat :=
  8 ^^^ (r.code &&& 8)

/-- Register identifier 0, used by the source as a placeholder for zero when a
field is unused. -/
def RegisterIdentifier.RAX : RegisterIdentifier := ⟨0⟩

/-- Register identifier 4, the scaled-index-byte escape in the rm field. -/
def RegisterIdentifier.RSP : RegisterIdentifier := ⟨4⟩

/-- Register identifier 5, the RIP-relative or displacement-only escape at
MOD 00. -/
def RegisterIdentifier.RBP : RegisterIdentifier := ⟨5⟩

/-- Modelled from the spec: the family a register belongs to, needed for the
addressing-mode predicates (vector registers select VSIB addressing and the
instruction-pointer pseudo-register selects RIP-relative addressing). -/
inductive RegisterFamily
  | GeneralPurpose
  | Vector
  | InstructionPointer
deriving DecidableEq

/-- Modelled from the spec: a register as consumed by the encoder, carrying
its numeric identifier and its family (Register in the source, which is not
under src). -/
structure Register where
  identifier : RegisterIdentifier
  family : RegisterFamily
deriving DecidableEq

/-- Modelled from the spec: the base register of an indirect memory operand
selects RIP-relative addressing exactly when it is the RIP pseudo-register. -/
def Register.addressing_mode_is_rip_relative (base : Option Register) : Bool :=
  match base with
  | some r => r.family = RegisterFamily.InstructionPointer
  | none => false

/-- Modelled from the spec: a base register is RBP-like (collides with the
MOD 00 RBP encoding) exactly when its low 3 bits are 5. -/
def Register.addressing_uses_rbp_base (base : Option Register) : Bool :=
  match base with
  | some r => r.identifier.code_and_7 = 5
  | none => false

/-- Modelled from the spec: symbolic Rust expressions the encoder emits into
symbolic slots (RustExpression in the source, which is not under src).  Only
the constructors the encoder builds are modelled; var stands for an arbitrary
expression supplied by the caller. -/
inductive RustExpression
  | var (ident : Nat)
  | zero
  | literalByte (value : Nat)
  | orWithMaskedValue (base : RustExpression) (value : RustExpression) (mask : Nat)
deriving DecidableEq

/-- Modelled from the spec: the literal-byte expression constructor; the u8
value wraps modulo 256. -/
def RustExpression.literal_byte (value : Nat) : RustExpression :=
  RustExpression.literalByte (value % 256)

/-- Modelled from the spec: ors a masked value into an expression. -/
def RustExpression.or_with_masked_value (base : RustExpression) (value : RustExpression) (mask : Nat) : RustExpression :=
  RustExpression.orWithMaskedValue base value mask

/-- Jump variants, from JumpVariant in the source; the variant determines the
relocation kind. -/
inductive JumpVariant
  | Bare (expression : RustExpression)
  | Global (ident : Nat)
  | Forward (ident : Nat)
  | Backward (ident : Nat)
  | Dynamic (expression : RustExpression)
deriving DecidableEq

/-- Modelled from the spec: one item written to the byte or expression sink.
Literal bytes accumulate; symbolic expressions occupy a slot of the stated
width; the scaled-index-byte-by-expression form records the SIB slot whose
value is computed at code-generation time. -/
inductive EmittedItem
  | literal (byte : Nat)
  | signedExpression (value : RustExpression) (size : Size)
  | unsignedExpression (value : RustExpression) (size : Size)
  | scaledIndexByteExpression (scale : Int) (expression : RustExpression) (index : RegisterIdentifier) (base : RegisterIdentifier)
deriving DecidableEq

/-- Modelled from the spec: the kind of a relocation entry. -/
inductive RelocationKind
  | JumpTargetRelative
  | RelativeReference
  | SymbolReference
deriving DecidableEq

/-- Modelled from the spec: one relocation entry carrying its kind, the
originating jump variant and the width of the fixed-up range. -/
structure RelocationEntry where
  kind : RelocationKind
  variant : JumpVariant
  size : Size
deriving DecidableEq

/-- Modelled from the spec: the ordered relocation container (Relocations in
the source, which is not under src); created per mode, it tracks the current
byte-stream offset and the entries pushed so far. -/
structure Relocations where
  mode : SupportedOperationalMode
  offset : Nat
  entries : List RelocationEntry
deriving DecidableEq

/-- Modelled from the spec: the per-mode relocation factory. -/
def SupportedOperationalMode.new_relocations (mode : SupportedOperationalMode) : Relocations :=
  { mode := mode, offset := 0, entries := [] }

/-- Modelled from the spec: bump advances the current offset by the width of
the bytes just emitted. -/
def Relocations.bump (r : Relocations) (size : Size) : Relocations :=
  { r with offset := r.offset + size.to_number_of_bytes }

/-- Modelled from the spec: append a JumpTargetRelative entry for the given
jump variant and width. -/
def Relocations.push_jump_target_addressing (r : Relocations) (variant : JumpVariant) (size : Size) : Relocations :=
  { r with entries := r.entries ++ [{ kind := RelocationKind.JumpTargetRelative, variant := variant, size := size }] }

/-- Modelled from the spec: an index register with scale and optional scale
expression inside an indirect memory operand
(ParsedIndirectMemoryReferenceIndex in the source, which is not under src). -/
structure ParsedIndirectMemoryReferenceIndex where
  register : Register
  scale : Int
  expression : Option RustExpression
deriving DecidableEq

/-- Modelled from the spec: an indirect memory operand uses VSIB addressing
exactly when its index register is a vector register. -/
def ParsedIndirectMemoryReferenceIndex.addressing_mode_is_vector_scaled_index_byte (index : Option ParsedIndirectMemoryReferenceIndex) : Bool :=
  match index with
  | some ix => ix.register.family = RegisterFamily.Vector
  | none => false

/-- Modelled from the spec: the scale field encoding, mapping the scales 1, 2,
4 and 8 to 0, 1, 2 and 3; other scales are not produced by the parser and the
spec leaves them undefined, so they map to 0 here. -/
def ParsedIndirectMemoryReferenceIndex.encode_scale (scale : Int) : Nat :=
  if scale = 1 then 0
  else if scale = 2 then 1
  else if scale = 4 then 2
  else if scale = 8 then 3
  else 0

/-- Sized mnemonic arguments, from SizedMnemonicArgument in the source. -/
inductive SizedMnemonicArgument
  | DirectRegisterReference (register : Register) (size : Size)
  | IndirectMemoryReference (displacement_size : Option Size) (base : Option Register) (index : Option ParsedIndirectMemoryReferenceIndex) (displacement : Option RustExpression)
  | IndirectJumpTarget (jump_variant : JumpVariant) (size : Size)
  | Immediate (value : RustExpression) (size : Size)
  | JumpTarget (jump_variant : JumpVariant) (size : Size)
deriving DecidableEq

/-- Modelled from the spec: the flag set of a mnemonic definition signature
restricted to the flags the embedded encoder inspects
(MnemonicDefinitionSignature in the source, which is not under src, exposes a
larger record; only flag queries and the reg placeholder matter here). -/
structure MnemonicDefinitionSignature where
  vex_op : Bool
  xop_op : Bool
  short_arg : Bool
deriving DecidableEq

/-- The VEX-or-XOP flag intersection query used by the prefix encoder. -/
def MnemonicDefinitionSignature.intersects_vex_operation_or_xop_operation (s : MnemonicDefinitionSignature) : Bool :=
  s.vex_op || s.xop_op

/-- The VEX flag containment query used by the VEX and XOP prefix emitter. -/
def MnemonicDefinitionSignature.contains_vex_operation (s : MnemonicDefinitionSignature) : Bool :=
  s.vex_op

/-- The SHORT ARG flag containment query used by the opcode embedder. -/
def MnemonicDefinitionSignature.contains_short_arg (s : MnemonicDefinitionSignature) : Bool :=
  s.short_arg

/-- Modelled from the spec: the reg field of the signature yields the register
identifier of a direct register reference and the RAX placeholder otherwise. -/
def MnemonicDefinitionSignature.reg_k (s : MnemonicDefinitionSignature) (reg : Option SizedMnemonicArgument) : RegisterIdentifier :=
  match reg with
  | some (SizedMnemonicArgument.DirectRegisterReference register _) => register.identifier
  | _ => RegisterIdentifier.RAX

/-- The architecture variant being assembled for, from
AssemblingForArchitectureVariant in the source; only the mode matters here. -/
structure AssemblingForArchitectureVariant where
  mode : SupportedOperationalMode
deriving DecidableEq

/-- The Protected-mode test on the architecture variant. -/
def AssemblingForArchitectureVariant.is_for_protected_mode (v : AssemblingForArchitectureVariant) : Bool :=
  v.mode = SupportedOperationalMode.Protected

/-- Encoding errors, from InstructionEncodingError in the source: a static
reason string. -/
structure InstructionEncodingError where
  reason : String
deriving DecidableEq

/-- The ModRM or scaled-index byte, from push_mod_rm_byte_or_scaled_index_byte
in the source: the top field shifted by 6 (wrapping as u8 arithmetic does),
the low 3 bits of reg1 shifted by 3, and the low 3 bits of reg2. -/
def mod_rm_or_scaled_index_byte (mod_or_scale : Nat) (reg1 : RegisterIdentifier) (reg2 : RegisterIdentifier) : Nat :=
  (((mod_or_scale <<< 6) % 256) ||| (reg1.code_and_7 <<< 3)) ||| reg2.code_and_7

/-- Pushing the ModRM or scaled-index byte produces one literal item. -/
def push_mod_rm_byte_or_scaled_index_byte (mod_or_scale : Nat) (reg1 : RegisterIdentifier) (reg2 : RegisterIdentifier) : EmittedItem :=
  EmittedItem.literal (mod_rm_or_scaled_index_byte mod_or_scale reg1 reg2)

/-- The four little-endian literal bytes of a u32 push, from push_u32 in the
source. -/
def push_u32 (value : Nat) : List EmittedItem :=
  [ EmittedItem.literal (value % 256)
  , EmittedItem.literal ((value / 256) % 256)
  , EmittedItem.literal ((value / 65536) % 256)
  , EmittedItem.literal ((value / 16777216) % 256) ]

/-- Modelled from the spec: push_signed_expression is unimplemented in the
source (its body is a panic placeholder); per the spec a symbolic expression
occupies one signed slot of the stated width. -/
def push_signed_expression (value : RustExpression) (size : Size) : List EmittedItem :=
  [EmittedItem.signedExpression value size]

/-- Modelled from the spec: push_unsigned_expression is unimplemented in the
source; per the spec a symbolic expression occupies one unsigned slot of the
stated width. -/
def push_unsigned_expression (value : RustExpression) (size : Size) : List EmittedItem :=
  [EmittedItem.unsignedExpression value size]

/-- Modelled from the spec: the scaled-index-byte-by-expression emission is
unimplemented in the source; per the spec the evaluated SIB value is placed
into the slot at code-generation time, recorded here as one symbolic item. -/
def push_scaled_index_byte_with_scale_calculated_by_expression (scale : Int) (expression : RustExpression) (reg1 : RegisterIdentifier) (reg2 : RegisterIdentifier) : List EmittedItem :=
  [EmittedItem.scaledIndexByteExpression scale expression reg1 reg2]

/-- The MOD field for no displacement. -/
def MOD_NO_DISPLACEMENT : Nat := 0

/-- The MOD field for an 8-bit displacement. -/
def MOD_DISPLACEMENT_8 : Nat := 1

/-- The MOD field for a 32-bit displacement. -/
def MOD_DISPLACEMENT_32 : Nat := 2

/-- The compressed legacy-prefix field of VEX byte2, computed exactly as the
prefix local of push_vex_and_xop_prefixes_or_operand_size_modification_and_rex_prefixes
in the source. -/
def vex_pp (size_prefix_is_needed : Bool) (legacy_prefix_modification : Option Nat) : Nat :=
  if size_prefix_is_needed then 1
  else
    match legacy_prefix_modification with
    | some 0xF3 => 1
    | some 0xF2 => 3
    | _ => 0

/-- The VEX and XOP prefix emitter, from push_vex_xop in the source.  Note
that when the 2-byte VEX shortcut condition holds the source pushes the
2-byte form and then, without returning, also pushes the 3-byte form. -/
def push_vex_xop (mode : SupportedOperationalMode) (signature : MnemonicDefinitionSignature) (reg : Option SizedMnemonicArgument) (rm : Option SizedMnemonicArgument) (map_sel_opcode_base_byte : Nat) (rex_w_prefix_is_needed : Bool) (vvvv : Option SizedMnemonicArgument) (vex_l_prefix_is_needed : Bool) (pp : Nat) : List EmittedItem :=
  let byte1 :=
    match mode with
    | SupportedOperationalMode.Long =>
      let reg_k :=
        match reg with
        | some (SizedMnemonicArgument.DirectRegisterReference register _) => register.identifier
        | _ => RegisterIdentifier.RAX
      let base_and_index :=
        match rm with
        | some (SizedMnemonicArgument.DirectRegisterReference register _) => (register.identifier, RegisterIdentifier.RAX)
        | some (SizedMnemonicArgument.IndirectMemoryReference _ base index _) =>
          ( match base with
            | some base => base.identifier
            | _ => RegisterIdentifier.RAX
          , match index with
            | some ix => ix.register.identifier
            | _ => RegisterIdentifier.RAX )
        | _ => (RegisterIdentifier.RAX, RegisterIdentifier.RAX)
      let base_k := base_and_index.1
      let index_k := base_and_index.2
      (((map_sel_opcode_base_byte &&& 0x1F) ||| (reg_k.code_and_8_then_invert <<< 4)) ||| (index_k.code_and_8_then_invert <<< 3)) ||| (base_k.code_and_8_then_invert <<< 2)
    | SupportedOperationalMode.Protected => (map_sel_opcode_base_byte &&& 0x1F) ||| 0xE0
  let vvvv_k :=
    match vvvv with
    | some (SizedMnemonicArgument.DirectRegisterReference register _) => register.identifier
    | _ => RegisterIdentifier.RAX
  let byte2 := (((pp &&& 0x3) ||| ((if rex_w_prefix_is_needed then 1 else 0) <<< 7)) ||| ((0xF ^^^ (vvvv_k.code &&& 0xF)) <<< 3)) ||| ((if vex_l_prefix_is_needed then 1 else 0) <<< 2)
  let two_byte_form :=
    if signature.contains_vex_operation && ((byte1 &&& 0x7F) == 0x61) && ((byte2 &&& 0x80) == 0)
    then [EmittedItem.literal 0xC5, EmittedItem.literal ((byte1 &&& 0x80) ||| (byte2 &&& 0x7F))]
    else []
  let vex_opcode_byte := if signature.contains_vex_operation then 0xC4 else 0x8F
  two_byte_form ++ [EmittedItem.literal vex_opcode_byte, EmittedItem.literal byte1, EmittedItem.literal byte2]

/-- The REX prefix byte, from push_rex_prefix_opcode_byte in the source. -/
def push_rex_prefix_opcode_byte (rex_w_prefix_is_needed : Bool) (reg : Option SizedMnemonicArgument) (rm : Option SizedMnemonicArgument) : EmittedItem :=
  let reg_k :=
    match reg with
    | some (SizedMnemonicArgument.DirectRegisterReference register _) => register.identifier
    | _ => RegisterIdentifier.RAX
  let base_and_index :=
    match rm with
    | some (SizedMnemonicArgument.DirectRegisterReference register _) => (register.identifier, RegisterIdentifier.RAX)
    | some (SizedMnemonicArgument.IndirectMemoryReference _ base index _) =>
      ( match base with
        | some base_register => base_register.identifier
        | none => RegisterIdentifier.RAX
      , match index with
        | some ix => ix.register.identifier
        | _ => RegisterIdentifier.RAX )
    | _ => (RegisterIdentifier.RAX, RegisterIdentifier.RAX)
  let base_k := base_and_index.1
  let index_k := base_and_index.2
  let w_bit := (if rex_w_prefix_is_needed then 1 else 0) <<< 3
  let r_bit := reg_k.code_and_8 >>> 1
  let x_bit := index_k.code_and_8 >>> 2
  let b_bit := base_k.code_and_8 >>> 3
  EmittedItem.literal ((((0x40 ||| w_bit) ||| r_bit) ||| x_bit) ||| b_bit)

/-- The items pushed for an optional legacy prefix modification byte. -/
def legacy_modification_items (legacy_prefix_modification : Option Nat) : List EmittedItem :=
  match legacy_prefix_modification with
  | some byte => [EmittedItem.literal byte]
  | none => []

/-- The items pushed for the operand-size override. -/
def operand_size_override_items (size_prefix_is_needed : Bool) : List EmittedItem :=
  if size_prefix_is_needed then [EmittedItem.literal 0x66] else []

/-- The prefix stage, from
push_vex_and_xop_prefixes_or_operand_size_modification_and_rex_prefixes in the
source.  The first component is every item pushed to the byte buffer; the
second is none when the source panics (missing map sel byte), and otherwise
the encoding outcome carrying the opcode bytes still to emit. -/
def push_vex_and_xop_prefixes_or_operand_size_modification_and_rex_prefixes (assembling_for_architecture_variant : AssemblingForArchitectureVariant) (signature : MnemonicDefinitionSignature) (remaining_signature_opcode_bytes : List Nat) (size_prefix_is_needed : Bool) (legacy_prefix_modification : Option Nat) (rex_prefix_is_needed : Bool) (rex_w_prefix_is_needed : Bool) (vex_l_prefix_is_needed : Bool) (reg : Option SizedMnemonicArgument) (rm : Option SizedMnemonicArgument) (vvvv : Option SizedMnemonicArgument) : List EmittedItem × Option (Except InstructionEncodingError (List Nat)) :=
  if signature.intersects_vex_operation_or_xop_operation then
    match remaining_signature_opcode_bytes with
    | [] => ([], none)
    | map_sel_opcode_base_byte :: tail =>
      ( push_vex_xop assembling_for_architecture_variant.mode signature reg rm map_sel_opcode_base_byte rex_w_prefix_is_needed vvvv vex_l_prefix_is_needed (vex_pp size_prefix_is_needed legacy_prefix_modification)
      , some (Except.ok tail) )
  else
    let front := legacy_modification_items legacy_prefix_modification ++ operand_size_override_items size_prefix_is_needed
    if rex_prefix_is_needed then
      if assembling_for_architecture_variant.is_for_protected_mode then
        (front, some (Except.error ⟨"Some SSE and AVX legacy encoded operations are not possible in 32-bit mode as they require a REX.W prefix to be encoded, which is impossible"⟩))
      else
        (front ++ [push_rex_prefix_opcode_byte rex_w_prefix_is_needed reg rm], some (Except.ok remaining_signature_opcode_bytes))
    else
      (front, some (Except.ok remaining_signature_opcode_bytes))

/-- Splits the last element off a list, none on the empty list, mirroring the
split_last call of the source. -/
def splitLastOption : List Nat → Option (List Nat × Nat)
  | [] => none
  | [a] => some ([], a)
  | a :: b :: rest =>
    match splitLastOption (b :: rest) with
    | some (head, last) => some (a :: head, last)
    | none => none

/-- The opcode embedder, from push_r_m_last_opcode_byte in the source.  The
result is none when the source panics; otherwise it carries the items pushed
and the rm slot after the call (the source takes rm out whenever the SHORT
ARG flag is set). -/
def push_r_m_last_opcode_byte (signature : MnemonicDefinitionSignature) (remaining_signature_opcode_bytes : List Nat) (rm : Option SizedMnemonicArgument) : Option (List EmittedItem × Option SizedMnemonicArgument) :=
  if signature.contains_short_arg then
    match splitLastOption remaining_signature_opcode_bytes with
    | none => none
    | some (head, last_opcode_byte) =>
      match rm with
      | none => none
      | some (SizedMnemonicArgument.DirectRegisterReference rm_k _) =>
        let rescaled_for_r8_to_r15 := rm_k.identifier.code_and_7
        some (head.map EmittedItem.literal ++ [EmittedItem.literal ((last_opcode_byte + rescaled_for_r8_to_r15) % 256)], none)
      | some _ => some (head.map EmittedItem.literal, none)
  else
    some (remaining_signature_opcode_bytes.map EmittedItem.literal, rm)

/-- The register-in-immediate emitter, from push_register_in_immediate in the
source.  The result is none when the source panics (the first remaining
argument is not a BYTE immediate); otherwise it carries the items pushed, the
remaining arguments after any consumption, and the updated relocations. -/
def push_register_in_immediate (ireg : Option SizedMnemonicArgument) (remaining_arguments : List SizedMnemonicArgument) (relocations : Relocations) : Option (List EmittedItem × List SizedMnemonicArgument × Relocations) :=
  match ireg with
  | some (SizedMnemonicArgument.DirectRegisterReference ireg_register _) =>
    let byte_literal := RustExpression.literal_byte (ireg_register.identifier.code <<< 4)
    match remaining_arguments with
    | [] =>
      some (push_unsigned_expression byte_literal Size.BYTE, [], relocations.bump Size.BYTE)
    | first :: rest =>
      match first with
      | SizedMnemonicArgument.Immediate value Size.BYTE =>
        some (push_unsigned_expression (byte_literal.or_with_masked_value value 0xF) Size.BYTE, rest, relocations.bump Size.BYTE)
      | _ => none
  | _ => some ([], remaining_arguments, relocations)

/-- The VSIB sub-encoder, from
indirect_mod_rm_and_scaled_index_byte_addressing_mode_is_vector_scaled_index_byte
in the source.  The result is none when the source panics (no index). -/
def indirect_mod_rm_and_scaled_index_byte_addressing_mode_is_vector_scaled_index_byte (mode : SupportedOperationalMode) (reg_k : RegisterIdentifier) (displacement_size : Option Size) (base : Option Register) (index : Option ParsedIndirectMemoryReferenceIndex) (displacement : Option RustExpression) : Option (List EmittedItem × Relocations) :=
  let base_and_mod :=
    match base with
    | none => (RegisterIdentifier.RBP, MOD_NO_DISPLACEMENT)
    | some base =>
      ( base.identifier
      , match displacement, displacement_size with
        | some _, some Size.BYTE => MOD_DISPLACEMENT_8
        | some _, some Size.DWORD => MOD_DISPLACEMENT_32
        | some _, _ => MOD_DISPLACEMENT_32
        | _, _ => MOD_DISPLACEMENT_8 )
  let base_slot := base_and_mod.1
  let mod_ := base_and_mod.2
  match index with
  | none => none
  | some ix =>
    let scaled_index_items :=
      match ix.expression with
      | some expression => push_scaled_index_byte_with_scale_calculated_by_expression ix.scale expression ix.register.identifier base_slot
      | none => [push_mod_rm_byte_or_scaled_index_byte (ParsedIndirectMemoryReferenceIndex.encode_scale ix.scale) ix.register.identifier base_slot]
    let displacement_items :=
      match displacement with
      | some displacement => push_signed_expression displacement (if mod_ = MOD_DISPLACEMENT_8 then Size.BYTE else Size.DWORD)
      | none =>
        if mod_ = MOD_DISPLACEMENT_8 then [EmittedItem.literal 0] else push_u32 0
    some
      ( push_mod_rm_byte_or_scaled_index_byte mod_ reg_k RegisterIdentifier.RSP :: (scaled_index_items ++ displacement_items)
      , mode.new_relocations )

/-- The 16-bit addressing sub-encoder, from
indirect_mod_rm_and_scaled_index_byte_addressing_mode_is_16_bit in the source.
The result is none when the source panics (no base register). -/
def indirect_mod_rm_and_scaled_index_byte_addressing_mode_is_16_bit (mode : SupportedOperationalMode) (reg_k : RegisterIdentifier) (displacement_size : Option Size) (base : Option Register) (displacement : Option RustExpression) : Option (List EmittedItem × Relocations) :=
  match base with
  | none => none
  | some base_register =>
    let base_k := base_register.identifier
    let mod_ :=
      match displacement, displacement_size with
      | some _, some Size.BYTE => MOD_DISPLACEMENT_8
      | some _, _ => MOD_DISPLACEMENT_32
      | none, _ =>
        if Register.addressing_uses_rbp_base (some base_register) then MOD_DISPLACEMENT_8 else MOD_NO_DISPLACEMENT
    let displacement_items :=
      match displacement with
      | some displacement => push_signed_expression displacement (if mod_ = MOD_DISPLACEMENT_8 then Size.BYTE else Size.WORD)
      | none => if mod_ = MOD_DISPLACEMENT_8 then [EmittedItem.literal 0] else []
    some
      ( push_mod_rm_byte_or_scaled_index_byte mod_ reg_k base_k :: displacement_items
      , mode.new_relocations )

/-- The RIP-relative sub-encoder, from
indirect_mod_rm_and_scaled_index_byte_addressing_mode_is_rip_relative in the
source. -/
def indirect_mod_rm_and_scaled_index_byte_addressing_mode_is_rip_relative (reg_k : RegisterIdentifier) (displacement : Option RustExpression) (mode : SupportedOperationalMode) : List EmittedItem × Relocations :=
  let mod_rm := push_mod_rm_byte_or_scaled_index_byte MOD_NO_DISPLACEMENT reg_k RegisterIdentifier.RBP
  match mode with
  | SupportedOperationalMode.Long =>
    ( mod_rm ::
      ( match displacement with
        | some displacement => push_signed_expression displacement Size.DWORD
        | none => push_u32 0 )
    , SupportedOperationalMode.Long.new_relocations )
  | SupportedOperationalMode.Protected =>
    let displacement_or_zero := displacement.getD RustExpression.zero
    ( mod_rm :: push_u32 0
    , (SupportedOperationalMode.Protected.new_relocations).push_jump_target_addressing (JumpVariant.Bare displacement_or_zero) Size.DWORD )

/-- The ordinary indirect sub-encoder, from
indirect_mod_rm_and_scaled_index_byte_addressing_mode_is_ordinary in the
source. -/
def indirect_mod_rm_and_scaled_index_byte_addressing_mode_is_ordinary (reg_k : RegisterIdentifier) (displacement_size : Option Size) (base : Option Register) (index : Option ParsedIndirectMemoryReferenceIndex) (displacement : Option RustExpression) (mode : SupportedOperationalMode) : List EmittedItem × Relocations :=
  let no_base := base.isNone
  let no_displacement := displacement.isNone
  let mod_ :=
    if Register.addressing_uses_rbp_base base && no_displacement then MOD_DISPLACEMENT_8
    else if no_displacement || no_base then MOD_NO_DISPLACEMENT
    else
      match displacement_size with
      | some Size.BYTE => MOD_DISPLACEMENT_8
      | some Size.DWORD => MOD_DISPLACEMENT_32
      | _ => MOD_DISPLACEMENT_32
  let mod_rm_and_scaled_index_items :=
    match index with
    | some ix =>
      let sib_base :=
        match base with
        | some base => base.identifier
        | none => RegisterIdentifier.RBP
      push_mod_rm_byte_or_scaled_index_byte mod_ reg_k RegisterIdentifier.RSP ::
        ( match ix.expression with
          | some expression => push_scaled_index_byte_with_scale_calculated_by_expression ix.scale expression ix.register.identifier sib_base
          | none => [push_mod_rm_byte_or_scaled_index_byte (ParsedIndirectMemoryReferenceIndex.encode_scale ix.scale) ix.register.identifier sib_base] )
    | none =>
      match base with
      | some base => [push_mod_rm_byte_or_scaled_index_byte mod_ reg_k base.identifier]
      | none =>
        match mode with
        | SupportedOperationalMode.Protected => [push_mod_rm_byte_or_scaled_index_byte mod_ reg_k RegisterIdentifier.RBP]
        | SupportedOperationalMode.Long =>
          [ push_mod_rm_byte_or_scaled_index_byte mod_ reg_k RegisterIdentifier.RSP
          , push_mod_rm_byte_or_scaled_index_byte 0 RegisterIdentifier.RSP RegisterIdentifier.RBP ]
  let displacement_items :=
    match displacement with
    | some displacement => push_signed_expression displacement (if mod_ = MOD_DISPLACEMENT_8 then Size.BYTE else Size.DWORD)
    | none =>
      if no_base then push_u32 0
      else if mod_ = MOD_DISPLACEMENT_8 then [EmittedItem.literal 0]
      else []
  (mod_rm_and_scaled_index_items ++ displacement_items, mode.new_relocations)

/-- The addressing dispatcher, from
indirect_mod_rm_and_scaled_index_byte_addressing in the source: VSIB first,
then 16-bit addressing, then RIP-relative, then ordinary. -/
def indirect_mod_rm_and_scaled_index_byte_addressing (mode : SupportedOperationalMode) (signature : MnemonicDefinitionSignature) (reg : Option SizedMnemonicArgument) (displacement_size : Option Size) (base : Option Register) (index : Option ParsedIndirectMemoryReferenceIndex) (displacement : Option RustExpression) (address_size : AddressSize) : Option (List EmittedItem × Relocations) :=
  let reg_k := signature.reg_k reg
  if ParsedIndirectMemoryReferenceIndex.addressing_mode_is_vector_scaled_index_byte index then
    indirect_mod_rm_and_scaled_index_byte_addressing_mode_is_vector_scaled_index_byte mode reg_k displacement_size base index displacement
  else if address_size.is_16_bit_addressing then
    indirect_mod_rm_and_scaled_index_byte_addressing_mode_is_16_bit mode reg_k displacement_size base displacement
  else if Register.addressing_mode_is_rip_relative base then
    some (indirect_mod_rm_and_scaled_index_byte_addressing_mode_is_rip_relative reg_k displacement mode)
  else
    some (indirect_mod_rm_and_scaled_index_byte_addressing_mode_is_ordinary reg_k displacement_size base index displacement mode)

/-- Segment registers, from SegmentRegister in the source. -/
inductive SegmentRegister
  | ES
  | CS
  | SS
  | DS
deriving DecidableEq

/-- Modelled from the spec: a 64-bit immediate (Immediate64Bit in the source,
which is not under src), a wrapper around a signed 64-bit value. -/
structure Immediate64Bit where
  value : Int
deriving DecidableEq

/-- The 16-bit memory offset, from MemoryOffset16Bit in the source. -/
inductive MemoryOffset16Bit
  | SegmentOffsetForm16 (segment_register : SegmentRegister) (immediate : Immediate64Bit)
  | OffsetForm16 (immediate : Immediate64Bit)
deriving DecidableEq

/-- Conversion from a pair of an optional segment register and an immediate,
from the From impl on lines 47 to 60 of MemoryOffset16Bit.rs. -/
def MemoryOffset16Bit.from_optional_segment_register_and_immediate (value : Option SegmentRegister × Immediate64Bit) : MemoryOffset16Bit :=
  match value.1 with
  | some segment_register => MemoryOffset16Bit.SegmentOffsetForm16 segment_register value.2
  | none => MemoryOffset16Bit.OffsetForm16 value.2

/-- Conversion into a pair of an optional segment register and an immediate,
from the Into impl on lines 143 to 156 of MemoryOffset16Bit.rs. -/
def MemoryOffset16Bit.into_optional_segment_register_and_immediate (m : MemoryOffset16Bit) : Option SegmentRegister × Immediate64Bit :=
  match m with
  | MemoryOffset16Bit.SegmentOffsetForm16 segment_register immediate => (some segment_register, immediate)
  | MemoryOffset16Bit.OffsetForm16 immediate => (none, immediate)

/-- The segment register accessor of the MemoryOffset trait impl. -/
def MemoryOffset16Bit.get_segment_register (m : MemoryOffset16Bit) : Option SegmentRegister :=
  match m with
  | MemoryOffset16Bit.SegmentOffsetForm16 segment_register _ => some segment_register
  | MemoryOffset16Bit.OffsetForm16 _ => none

/-- The offset accessor of the MemoryOffset trait impl. -/
def MemoryOffset16Bit.get_offset (m : MemoryOffset16Bit) : Immediate64Bit :=
  match m with
  | MemoryOffset16Bit.SegmentOffsetForm16 _ immediate => immediate
  | MemoryOffset16Bit.OffsetForm16 immediate => immediate

/-- C10: converting a pair of an optional segment register and an immediate
into a MemoryOffset16Bit and back is the identity in both directions, and the
accessors get_segment_register and get_offset recover exactly the components
the offset was constructed from. -/
theorem memory_offset_16_bit_round_trip :
    (∀ p : Option SegmentRegister × Immediate64Bit,
      MemoryOffset16Bit.into_optional_segment_register_and_immediate
        (MemoryOffset16Bit.from_optional_segment_register_and_immediate p) = p) ∧
    (∀ m : MemoryOffset16Bit,
      MemoryOffset16Bit.from_optional_segment_register_and_immediate
        (MemoryOffset16Bit.into_optional_segment_register_and_immediate m) = m) ∧
    (∀ p : Option SegmentRegister × Immediate64Bit,
      (MemoryOffset16Bit.from_optional_segment_register_and_immediate p).get_segment_register = p.1 ∧
      (MemoryOffset16Bit.from_optional_segment_register_and_immediate p).get_offset = p.2) := by
  refine ⟨?_, ?_, ?_⟩
  · rintro ⟨(_ | s), i⟩ <;> rfl
  · rintro (m | m) <;> rfl
  · rintro ⟨(_ | s), i⟩ <;> exact ⟨rfl, rfl⟩

/-- C1 counterevidence: with a VEX signature in Long mode, map sel byte 0x01,
absent reg, rm and vvvv operands, rex_w and vex_l false and pp 0, the 2-byte
VEX shortcut condition holds (byte1 = 0xE1, byte2 = 0x78), yet push_vex_xop
emits the 2-byte form 0xC5 0xF8 and then, with no early return, also the
3-byte form 0xC4 0xE1 0x78: two VEX prefix groups in one instruction, not
exactly one. -/
theorem push_vex_xop_two_byte_shortcut_also_emits_three_byte_form :
    push_vex_xop SupportedOperationalMode.Long ⟨true, false, false⟩ none none 1 false none false 0 =
      [ EmittedItem.literal 0xC5, EmittedItem.literal 0xF8
      , EmittedItem.literal 0xC4, EmittedItem.literal 0xE1, EmittedItem.literal 0x78 ] := rfl

/-- C2 counterevidence: with the SHORT ARG flag set, remaining opcode bytes
[0xB8] and an rm operand that is an Immediate rather than a
DirectRegisterReference, push_r_m_last_opcode_byte does not panic: it returns
normally having emitted nothing (the last opcode byte 0xB8 is dropped) and
having consumed rm, where the claim and the spec require a deterministic
panic naming the signature-table invariant. -/
theorem push_r_m_last_opcode_byte_silently_drops_non_register_rm :
    push_r_m_last_opcode_byte ⟨false, false, true⟩ [0xB8]
        (some (SizedMnemonicArgument.Immediate RustExpression.zero Size.BYTE)) =
      some ([], none) := rfl

/-- C9 counterexample: when the register-in-immediate operand is a direct
register reference and the first remaining argument is an Immediate of size
DWORD rather than BYTE, the claim predicts the literal byte is emitted
alone; the code instead panics (modelled as none), so the claimed result is
not produced. -/
theorem register_in_immediate_non_byte_immediate_head_panics :
    push_register_in_immediate
        (some (SizedMnemonicArgument.DirectRegisterReference ⟨⟨1⟩, RegisterFamily.Vector⟩ Size.BYTE))
        [SizedMnemonicArgument.Immediate RustExpression.zero Size.DWORD]
        (SupportedOperationalMode.Long.new_relocations) = none ∧
    push_register_in_immediate
        (some (SizedMnemonicArgument.DirectRegisterReference ⟨⟨1⟩, RegisterFamily.Vector⟩ Size.BYTE))
        [SizedMnemonicArgument.Immediate RustExpression.zero Size.DWORD]
        (SupportedOperationalMode.Long.new_relocations) ≠
      some ( push_unsigned_expression (RustExpression.literal_byte 16) Size.BYTE
           , [SizedMnemonicArgument.Immediate RustExpression.zero Size.DWORD]
           , (SupportedOperationalMode.Long.new_relocations).bump Size.BYTE ) := by
  exact ⟨rfl, by decide⟩

/-- C9 amended: for a register-in-immediate operand that is a
DirectRegisterReference, the emitted byte has the register code shifted into
the top nibble; when the first remaining argument is a BYTE immediate it is
masked into the low nibble with mask 0xF and consumed, when no arguments
remain the literal byte is emitted alone, and when the first remaining
argument is anything else the step panics; in the two successful cases the
byte is emitted as an unsigned BYTE expression and the relocations offset is
bumped by exactly 1. -/
theorem register_in_immediate_characterisation (r : Register) (sz : Size)
    (remaining : List SizedMnemonicArgument) (relocations : Relocations) :
    (remaining = [] →
      push_register_in_immediate (some (SizedMnemonicArgument.DirectRegisterReference r sz)) remaining relocations =
        some ( [EmittedItem.unsignedExpression (RustExpression.literalByte ((r.identifier.code <<< 4) % 256)) Size.BYTE]
             , []
             , { relocations with offset := relocations.offset + 1 } )) ∧
    (∀ value rest, remaining = SizedMnemonicArgument.Immediate value Size.BYTE :: rest →
      push_register_in_immediate (some (SizedMnemonicArgument.DirectRegisterReference r sz)) remaining relocations =
        some ( [EmittedItem.unsignedExpression
                  (RustExpression.orWithMaskedValue (RustExpression.literalByte ((r.identifier.code <<< 4) % 256)) value 0xF)
                  Size.BYTE]
             , rest
             , { relocations with offset := relocations.offset + 1 } )) ∧
    (∀ first rest, remaining = first :: rest →
      (∀ value, first ≠ SizedMnemonicArgument.Immediate value Size.BYTE) →
      push_register_in_immediate (some (SizedMnemonicArgument.DirectRegisterReference r sz)) remaining relocations = none) := by
  refine ⟨?_, ?_, ?_⟩
  · rintro rfl
    simp [push_register_in_immediate, push_unsigned_expression, RustExpression.literal_byte,
      Relocations.bump, Size.to_number_of_bytes]
  · rintro value rest rfl
    simp [push_register_in_immediate, push_unsigned_expression, RustExpression.literal_byte,
      RustExpression.or_with_masked_value, Relocations.bump, Size.to_number_of_bytes]
  · rintro first rest rfl hfirst
    cases first with
    | Immediate value size =>
      cases size with
      | BYTE => exact absurd rfl (hfirst value)
      | WORD => rfl
      | DWORD => rfl
      | QWORD => rfl
    | DirectRegisterReference register size => rfl
    | IndirectMemoryReference a b c d => rfl
    | IndirectJumpTarget a b => rfl
    | JumpTarget a b => rfl

/-- C9 witness: the amended characterisation evaluated with register code 1
and an empty remaining-argument list. -/
theorem register_in_immediate_characterisation_witness :
    push_register_in_immediate
        (some (SizedMnemonicArgument.DirectRegisterReference ⟨⟨1⟩, RegisterFamily.Vector⟩ Size.BYTE))
        [] (SupportedOperationalMode.Long.new_relocations) =
      some ( [EmittedItem.unsignedExpression (RustExpression.literalByte 16) Size.BYTE]
           , []
           , { mode := SupportedOperationalMode.Long, offset := 1, entries := [] } ) := by
  have h := (register_in_immediate_characterisation ⟨⟨1⟩, RegisterFamily.Vector⟩ Size.BYTE []
    (SupportedOperationalMode.Long.new_relocations)).1 rfl
  simpa [SupportedOperationalMode.new_relocations] using h

/-- C3: in Protected mode, for a signature without the VEX or XOP flags the
prefix stage pushes only the legacy-modification and operand-size-override
bytes and, when a REX prefix is needed, returns the documented
InstructionEncodingError; the REX prefix byte built by
push_rex_prefix_opcode_byte is never pushed.  For VEX or XOP signatures the
pushed items are exactly the VEX or XOP prefix bytes, so the REX emitter is
never reached in Protected mode at all. -/
theorem protected_mode_prefix_stage_never_emits_rex
    (assembling_for_architecture_variant : AssemblingForArchitectureVariant)
    (signature : MnemonicDefinitionSignature) (remaining_signature_opcode_bytes : List Nat)
    (size_prefix_is_needed : Bool) (legacy_prefix_modification : Option Nat)
    (rex_prefix_is_needed rex_w_prefix_is_needed vex_l_prefix_is_needed : Bool)
    (reg rm vvvv : Option SizedMnemonicArgument)
    (hmode : assembling_for_architecture_variant.mode = SupportedOperationalMode.Protected) :
    (signature.intersects_vex_operation_or_xop_operation = false →
      push_vex_and_xop_prefixes_or_operand_size_modification_and_rex_prefixes
          assembling_for_architecture_variant signature remaining_signature_opcode_bytes
          size_prefix_is_needed legacy_prefix_modification rex_prefix_is_needed
          rex_w_prefix_is_needed vex_l_prefix_is_needed reg rm vvvv =
        ( legacy_modification_items legacy_prefix_modification ++ operand_size_override_items size_prefix_is_needed
        , some ( if rex_prefix_is_needed then
                   Except.error ⟨"Some SSE and AVX legacy encoded operations are not possible in 32-bit mode as they require a REX.W prefix to be encoded, which is impossible"⟩
                 else
                   Except.ok remaining_signature_opcode_bytes ) )) ∧
    (signature.intersects_vex_operation_or_xop_operation = true →
      (push_vex_and_xop_prefixes_or_operand_size_modification_and_rex_prefixes
          assembling_for_architecture_variant signature remaining_signature_opcode_bytes
          size_prefix_is_needed legacy_prefix_modification rex_prefix_is_needed
          rex_w_prefix_is_needed vex_l_prefix_is_needed reg rm vvvv).1 =
        ( match remaining_signature_opcode_bytes with
          | [] => []
          | map_sel_opcode_base_byte :: _ =>
            push_vex_xop SupportedOperationalMode.Protected signature reg rm map_sel_opcode_base_byte
              rex_w_prefix_is_needed vvvv vex_l_prefix_is_needed
              (vex_pp size_prefix_is_needed legacy_prefix_modification) )) := by
  constructor
  · intro hsig
    have hprot : assembling_for_architecture_variant.is_for_protected_mode = true := by
      simp [AssemblingForArchitectureVariant.is_for_protected_mode, hmode]
    cases rex_prefix_is_needed <;>
      simp [push_vex_and_xop_prefixes_or_operand_size_modification_and_rex_prefixes, hsig, hprot]
  · intro hsig
    cases remaining_signature_opcode_bytes with
    | nil =>
      simp [push_vex_and_xop_prefixes_or_operand_size_modification_and_rex_prefixes, hsig]
    | cons map_sel_opcode_base_byte tail =>
      simp [push_vex_and_xop_prefixes_or_operand_size_modification_and_rex_prefixes, hsig, hmode]

/-- C3 witness: the Protected-mode REX failure evaluated at a non-VEX
signature needing a REX prefix, with no legacy modification and no size
override; the output is the documented error and no pushed bytes. -/
theorem protected_mode_prefix_stage_never_emits_rex_witness :
    push_vex_and_xop_prefixes_or_operand_size_modification_and_rex_prefixes
        ⟨SupportedOperationalMode.Protected⟩ ⟨false, false, false⟩ [0x0F] false none true true false none none none =
      ( []
      , some (Except.error ⟨"Some SSE and AVX legacy encoded operations are not possible in 32-bit mode as they require a REX.W prefix to be encoded, which is impossible"⟩) ) := by
  have h := (protected_mode_prefix_stage_never_emits_rex
    ⟨SupportedOperationalMode.Protected⟩ ⟨false, false, false⟩ [0x0F] false none true true false
    none none none rfl).1 rfl
  simpa [legacy_modification_items, operand_size_override_items] using h

/-- C4: for a RIP-relative indirect memory operand (base is the RIP
pseudo-register, not VSIB, not 16-bit addressing) the encoder emits ModRM
with MOD 00, the signature reg field and rm RBP; in Long mode the
displacement follows as a signed DWORD expression, or four zero bytes when
absent, with no relocation; in Protected mode exactly four zero bytes follow
and exactly one JumpTargetRelative relocation carrying Bare of the
displacement-or-zero at size DWORD is appended. -/
theorem rip_relative_addressing_encoding
    (mode : SupportedOperationalMode) (signature : MnemonicDefinitionSignature)
    (reg : Option SizedMnemonicArgument) (displacement_size : Option Size)
    (base : Option Register) (index : Option ParsedIndirectMemoryReferenceIndex)
    (displacement : Option RustExpression) (address_size : AddressSize)
    (hvsib : ParsedIndirectMemoryReferenceIndex.addressing_mode_is_vector_scaled_index_byte index = false)
    (h16 : address_size.is_16_bit_addressing = false)
    (hrip : Register.addressing_mode_is_rip_relative base = true) :
    indirect_mod_rm_and_scaled_index_byte_addressing mode signature reg displacement_size base index displacement address_size =
      some
        ( push_mod_rm_byte_or_scaled_index_byte MOD_NO_DISPLACEMENT (signature.reg_k reg) RegisterIdentifier.RBP ::
            ( match mode, displacement with
              | SupportedOperationalMode.Long, some d => [EmittedItem.signedExpression d Size.DWORD]
              | SupportedOperationalMode.Long, none => push_u32 0
              | SupportedOperationalMode.Protected, _ => push_u32 0 )
        , match mode with
          | SupportedOperationalMode.Long => SupportedOperationalMode.Long.new_relocations
          | SupportedOperationalMode.Protected =>
            { mode := SupportedOperationalMode.Protected
            , offset := 0
            , entries := [⟨RelocationKind.JumpTargetRelative, JumpVariant.Bare (displacement.getD RustExpression.zero), Size.DWORD⟩] } ) := by
  unfold indirect_mod_rm_and_scaled_index_byte_addressing
  simp only [hvsib, h16, hrip, Bool.false_eq_true, if_false, if_true, ite_true, ite_false]
  cases mode <;> cases displacement <;>
    simp [indirect_mod_rm_and_scaled_index_byte_addressing_mode_is_rip_relative,
      Relocations.push_jump_target_addressing, SupportedOperationalMode.new_relocations,
      push_signed_expression]

/-- C4 witness: RIP-relative encoding in Protected mode with reg absent and
no displacement; ModRM is 0x05, four zero bytes follow, and one
JumpTargetRelative Bare-zero DWORD relocation is appended. -/
theorem rip_relative_addressing_encoding_witness :
    indirect_mod_rm_and_scaled_index_byte_addressing SupportedOperationalMode.Protected
        ⟨false, false, false⟩ none none (some ⟨⟨5⟩, RegisterFamily.InstructionPointer⟩) none none AddressSize.SixtyFour =
      some
        ( [EmittedItem.literal 5, EmittedItem.literal 0, EmittedItem.literal 0, EmittedItem.literal 0, EmittedItem.literal 0]
        , { mode := SupportedOperationalMode.Protected
          , offset := 0
          , entries := [⟨RelocationKind.JumpTargetRelative, JumpVariant.Bare RustExpression.zero, Size.DWORD⟩] } ) := by
  have h := rip_relative_addressing_encoding SupportedOperationalMode.Protected
    ⟨false, false, false⟩ none none (some ⟨⟨5⟩, RegisterFamily.InstructionPointer⟩) none none
    AddressSize.SixtyFour rfl rfl rfl
  rw [h]
  rfl

/-- C5: for an ordinary indirect operand (not VSIB, not 16-bit, not
RIP-relative) whose base is RBP-like and which has no displacement, in either
mode and with or without an index register, the encoder selects MOD 01 and
appends a single zero displacement byte; the MOD 00 form is never produced
for such an operand. -/
theorem ordinary_rbp_like_base_without_displacement_forces_disp8
    (mode : SupportedOperationalMode) (signature : MnemonicDefinitionSignature)
    (reg : Option SizedMnemonicArgument) (displacement_size : Option Size)
    (b : Register) (index : Option ParsedIndirectMemoryReferenceIndex) (address_size : AddressSize)
    (hvsib : ParsedIndirectMemoryReferenceIndex.addressing_mode_is_vector_scaled_index_byte index = false)
    (h16 : address_size.is_16_bit_addressing = false)
    (hrip : Register.addressing_mode_is_rip_relative (some b) = false)
    (hrbp : Register.addressing_uses_rbp_base (some b) = true) :
    indirect_mod_rm_and_scaled_index_byte_addressing mode signature reg displacement_size (some b) index none address_size =
      some
        ( ( match index with
            | none => [push_mod_rm_byte_or_scaled_index_byte MOD_DISPLACEMENT_8 (signature.reg_k reg) b.identifier]
            | some ix =>
              push_mod_rm_byte_or_scaled_index_byte MOD_DISPLACEMENT_8 (signature.reg_k reg) RegisterIdentifier.RSP ::
                ( match ix.expression with
                  | some e => [EmittedItem.scaledIndexByteExpression ix.scale e ix.register.identifier b.identifier]
                  | none => [push_mod_rm_byte_or_scaled_index_byte (ParsedIndirectMemoryReferenceIndex.encode_scale ix.scale) ix.register.identifier b.identifier] ) )
          ++ [EmittedItem.literal 0]
        , mode.new_relocations ) := by
  unfold indirect_mod_rm_and_scaled_index_byte_addressing
  simp only [hvsib, h16, hrip, Bool.false_eq_true, if_false, ite_false]
  unfold indirect_mod_rm_and_scaled_index_byte_addressing_mode_is_ordinary
  cases index with
  | none =>
    simp [hrbp, MOD_DISPLACEMENT_8, MOD_NO_DISPLACEMENT, MOD_DISPLACEMENT_32,
      push_scaled_index_byte_with_scale_calculated_by_expression]
  | some ix =>
    cases hx : ix.expression <;>
      simp [hrbp, hx, MOD_DISPLACEMENT_8, MOD_NO_DISPLACEMENT, MOD_DISPLACEMENT_32,
        push_scaled_index_byte_with_scale_calculated_by_expression]

/-- C5 witness: Long mode, base RBP itself, no index, no displacement; the
output is ModRM 0x45 (MOD 01) followed by one zero displacement byte. -/
theorem ordinary_rbp_like_base_without_displacement_forces_disp8_witness :
    indirect_mod_rm_and_scaled_index_byte_addressing SupportedOperationalMode.Long
        ⟨false, false, false⟩ none none (some ⟨⟨5⟩, RegisterFamily.GeneralPurpose⟩) none none AddressSize.SixtyFour =
      some ([EmittedItem.literal 69, EmittedItem.literal 0], SupportedOperationalMode.Long.new_relocations) := by
  have h := ordinary_rbp_like_base_without_displacement_forces_disp8 SupportedOperationalMode.Long
    ⟨false, false, false⟩ none none ⟨⟨5⟩, RegisterFamily.GeneralPurpose⟩ none
    AddressSize.SixtyFour rfl rfl rfl rfl
  rw [h]
  rfl

/-- C6: for an ordinary indirect operand with no base and no index
(displacement-only), outside 16-bit addressing, the Long-mode encoder emits
ModRM with rm RSP followed by the scaled-index byte with scale 0, index RSP
and base RBP, while the Protected-mode encoder emits ModRM with rm RBP and no
scaled-index byte; in both modes the displacement follows as a signed DWORD
expression, or, when absent, as a zero DWORD. -/
theorem displacement_only_addressing_by_mode
    (mode : SupportedOperationalMode) (signature : MnemonicDefinitionSignature)
    (reg : Option SizedMnemonicArgument) (displacement_size : Option Size)
    (displacement : Option RustExpression) (address_size : AddressSize)
    (h16 : address_size.is_16_bit_addressing = false) :
    indirect_mod_rm_and_scaled_index_byte_addressing mode signature reg displacement_size none none displacement address_size =
      some
        ( ( match mode with
            | SupportedOperationalMode.Protected =>
              [push_mod_rm_byte_or_scaled_index_byte MOD_NO_DISPLACEMENT (signature.reg_k reg) RegisterIdentifier.RBP]
            | SupportedOperationalMode.Long =>
              [ push_mod_rm_byte_or_scaled_index_byte MOD_NO_DISPLACEMENT (signature.reg_k reg) RegisterIdentifier.RSP
              , push_mod_rm_byte_or_scaled_index_byte 0 RegisterIdentifier.RSP RegisterIdentifier.RBP ] )
          ++ ( match displacement with
               | some d => [EmittedItem.signedExpression d Size.DWORD]
               | none => push_u32 0 )
        , mode.new_relocations ) := by
  unfold indirect_mod_rm_and_scaled_index_byte_addressing
  simp only [h16, Bool.false_eq_true, if_false, ite_false]
  unfold indirect_mod_rm_and_scaled_index_byte_addressing_mode_is_ordinary
  cases mode <;> cases displacement <;>
    simp [Register.addressing_uses_rbp_base, ParsedIndirectMemoryReferenceIndex.addressing_mode_is_vector_scaled_index_byte,
      Register.addressing_mode_is_rip_relative, MOD_NO_DISPLACEMENT, MOD_DISPLACEMENT_8,
      MOD_DISPLACEMENT_32, push_signed_expression]

/-- C6 witness: Long mode with no displacement; the output is ModRM 0x04,
scaled-index byte 0x25 (scale 0, index RSP, base RBP) and four zero bytes. -/
theorem displacement_only_addressing_by_mode_witness :
    indirect_mod_rm_and_scaled_index_byte_addressing SupportedOperationalMode.Long
        ⟨false, false, false⟩ none none none none none AddressSize.SixtyFour =
      some
        ( [ EmittedItem.literal 4, EmittedItem.literal 37
          , EmittedItem.literal 0, EmittedItem.literal 0, EmittedItem.literal 0, EmittedItem.literal 0 ]
        , SupportedOperationalMode.Long.new_relocations ) := by
  have h := displacement_only_addressing_by_mode SupportedOperationalMode.Long
    ⟨false, false, false⟩ none none none AddressSize.SixtyFour rfl
  rw [h]
  rfl

/-- C7: for a VSIB operand (vector index register) a scaled-index byte is
always emitted and the rm field of ModRM is RSP; with no base the base slot
is RBP, MOD is 00 and a 32-bit displacement always follows (the expression
as a signed DWORD, or four zero bytes); with a base and no displacement MOD
is 01 and one zero displacement byte follows; with a base and a displacement
MOD is 01 for an explicit BYTE size and 10 otherwise. -/
theorem vsib_addressing_always_emits_scaled_index_byte
    (mode : SupportedOperationalMode) (signature : MnemonicDefinitionSignature)
    (reg : Option SizedMnemonicArgument) (displacement_size : Option Size)
    (base : Option Register) (ix : ParsedIndirectMemoryReferenceIndex)
    (displacement : Option RustExpression) (address_size : AddressSize)
    (hvec : ix.register.family = RegisterFamily.Vector) :
    indirect_mod_rm_and_scaled_index_byte_addressing mode signature reg displacement_size base (some ix) displacement address_size =
      some
        ( push_mod_rm_byte_or_scaled_index_byte
            ( match base, displacement, displacement_size with
              | none, _, _ => MOD_NO_DISPLACEMENT
              | some _, some _, some Size.BYTE => MOD_DISPLACEMENT_8
              | some _, some _, _ => MOD_DISPLACEMENT_32
              | some _, none, _ => MOD_DISPLACEMENT_8 )
            (signature.reg_k reg) RegisterIdentifier.RSP ::
          ( ( match ix.expression with
              | some e =>
                [EmittedItem.scaledIndexByteExpression ix.scale e ix.register.identifier
                  (match base with | some b => b.identifier | none => RegisterIdentifier.RBP)]
              | none =>
                [push_mod_rm_byte_or_scaled_index_byte (ParsedIndirectMemoryReferenceIndex.encode_scale ix.scale)
                  ix.register.identifier
                  (match base with | some b => b.identifier | none => RegisterIdentifier.RBP)] )
            ++ ( match base, displacement, displacement_size with
                 | none, some d, _ => [EmittedItem.signedExpression d Size.DWORD]
                 | none, none, _ => push_u32 0
                 | some _, some d, some Size.BYTE => [EmittedItem.signedExpression d Size.BYTE]
                 | some _, some d, _ => [EmittedItem.signedExpression d Size.DWORD]
                 | some _, none, _ => [EmittedItem.literal 0] ) )
        , mode.new_relocations ) := by
  have hv : ParsedIndirectMemoryReferenceIndex.addressing_mode_is_vector_scaled_index_byte (some ix) = true := by
    simp [ParsedIndirectMemoryReferenceIndex.addressing_mode_is_vector_scaled_index_byte, hvec]
  unfold indirect_mod_rm_and_scaled_index_byte_addressing
  simp only [hv, if_true, ite_true]
  unfold indirect_mod_rm_and_scaled_index_byte_addressing_mode_is_vector_scaled_index_byte
  cases base <;> cases displacement <;>
    rcases displacement_size with _ | ⟨_ | _ | _ | _⟩ <;> cases hx : ix.expression <;>
      simp [hx, MOD_NO_DISPLACEMENT, MOD_DISPLACEMENT_8, MOD_DISPLACEMENT_32,
        push_signed_expression, push_scaled_index_byte_with_scale_calculated_by_expression]

/-- C7 witness: Long mode, no base, vector index with code 2 and scale 4, no
displacement; the output is ModRM 0x04, scaled-index byte 0x95 (scale
encoding 2, index 2, base slot RBP) and four zero bytes. -/
theorem vsib_addressing_always_emits_scaled_index_byte_witness :
    indirect_mod_rm_and_scaled_index_byte_addressing SupportedOperationalMode.Long
        ⟨false, false, false⟩ none none none (some ⟨⟨⟨2⟩, RegisterFamily.Vector⟩, 4, none⟩) none AddressSize.SixtyFour =
      some
        ( [ EmittedItem.literal 4, EmittedItem.literal 149
          , EmittedItem.literal 0, EmittedItem.literal 0, EmittedItem.literal 0, EmittedItem.literal 0 ]
        , SupportedOperationalMode.Long.new_relocations ) := by
  have h := vsib_addressing_always_emits_scaled_index_byte SupportedOperationalMode.Long
    ⟨false, false, false⟩ none none none ⟨⟨⟨2⟩, RegisterFamily.Vector⟩, 4, none⟩ none
    AddressSize.SixtyFour rfl
  rw [h]
  rfl

/-- C8: for a 16-bit-addressing operand with its base present (and not VSIB),
only a ModRM byte is emitted, never a scaled-index byte; MOD is 01 for a
displacement with explicit BYTE size, 10 for any other supplied displacement,
and without a displacement 01 with a zero byte for an RBP-like base and 00
otherwise; the displacement follows as a signed BYTE when MOD is 01 and as a
signed WORD when MOD is 10. -/
theorem sixteen_bit_addressing_encoding
    (mode : SupportedOperationalMode) (signature : MnemonicDefinitionSignature)
    (reg : Option SizedMnemonicArgument) (displacement_size : Option Size)
    (b : Register) (index : Option ParsedIndirectMemoryReferenceIndex)
    (displacement : Option RustExpression) (address_size : AddressSize)
    (hvsib : ParsedIndirectMemoryReferenceIndex.addressing_mode_is_vector_scaled_index_byte index = false)
    (h16 : address_size.is_16_bit_addressing = true) :
    indirect_mod_rm_and_scaled_index_byte_addressing mode signature reg displacement_size (some b) index displacement address_size =
      some
        ( push_mod_rm_byte_or_scaled_index_byte
            ( match displacement, displacement_size with
              | some _, some Size.BYTE => MOD_DISPLACEMENT_8
              | some _, _ => MOD_DISPLACEMENT_32
              | none, _ =>
                if Register.addressing_uses_rbp_base (some b) then MOD_DISPLACEMENT_8 else MOD_NO_DISPLACEMENT )
            (signature.reg_k reg) b.identifier ::
          ( match displacement, displacement_size with
            | some d, some Size.BYTE => [EmittedItem.signedExpression d Size.BYTE]
            | some d, _ => [EmittedItem.signedExpression d Size.WORD]
            | none, _ =>
              if Register.addressing_uses_rbp_base (some b) then [EmittedItem.literal 0] else [] )
        , mode.new_relocations ) := by
  unfold indirect_mod_rm_and_scaled_index_byte_addressing
  simp only [hvsib, h16, Bool.false_eq_true, if_false, if_true, ite_true, ite_false]
  unfold indirect_mod_rm_and_scaled_index_byte_addressing_mode_is_16_bit
  cases displacement with
  | none =>
    cases hr : Register.addressing_uses_rbp_base (some b) <;>
      simp [hr, MOD_NO_DISPLACEMENT, MOD_DISPLACEMENT_8, MOD_DISPLACEMENT_32, push_signed_expression]
  | some d =>
    rcases displacement_size with _ | ⟨_ | _ | _ | _⟩ <;>
      simp [push_signed_expression, MOD_NO_DISPLACEMENT, MOD_DISPLACEMENT_8, MOD_DISPLACEMENT_32]

/-- C8 witness: Protected mode, base register code 6 (not RBP-like), no
displacement, 16-bit addressing; the output is the single ModRM byte 0x06
with MOD 00 and no displacement bytes. -/
theorem sixteen_bit_addressing_encoding_witness :
    indirect_mod_rm_and_scaled_index_byte_addressing SupportedOperationalMode.Protected
        ⟨false, false, false⟩ none none (some ⟨⟨6⟩, RegisterFamily.GeneralPurpose⟩) none none AddressSize.Sixteen =
      some ([EmittedItem.literal 6], SupportedOperationalMode.Protected.new_relocations) := by
  have h := sixteen_bit_addressing_encoding SupportedOperationalMode.Protected
    ⟨false, false, false⟩ none none ⟨⟨6⟩, RegisterFamily.GeneralPurpose⟩ none none
    AddressSize.Sixteen rfl rfl
  rw [h]
  rfl

end Assembler
